import Mathlib

/-
Verification of the startup orchestrator in src/main.py (PYE3 wind farm
analysis tool) against its natural-language specification.

The embedding below translates the module src/main.py into Lean.  The
external collaborators (configuration provider, logging sink, data manager,
authentication service, main window, splash screen) are out of scope per the
spec; their calls are recorded as events in a trace, and the points where a
collaborator call may raise an exception are driven by an explicit
environment record `Env`.  The retry wrapper
`ErrorRecoveryManager.file_operation_retry` lives in
core/services/error_recovery, which is not part of the source tree; it is
modelled from the spec (section 4.1) further below.
-/

set_option autoImplicit false
set_option maxHeartbeats 1000000

namespace PYE3

/-- Severity levels accepted by LogBook.log_event in src/main.py. -/
inductive Level where
  | info
  | warning
  | error
  deriving DecidableEq, Repr

/-- Startup stages of the sequencer, as named by the spec (section 3). -/
inductive StartupStage where
  | LoggingInit
  | DataBootstrap
  | ResourceResolution
  | AuthInit
  | WindowConstruction
  | LoadingScreenDisplay
  | DeferredActivation
  deriving DecidableEq, Repr

/-- Observable effects of the startup code: collaborator calls, log events,
dialogs, and stage markers.  A `stage s` event marks the point where stage
`s` of the sequencer begins. -/
inductive Event where
  | stage (s : StartupStage)
  | log (category message : String) (level : Level)
  | warnDialog (title content : String)
  | criticalDialog (title content : String)
  | loadCall (path : String)
  | createDefaultData
  | setWindowIcon (path : String)
  | mkdirCall (dir : String)
  | authServiceInit
  | windowConstructed
  | splashConfigured (gifDir logoPath : String)
  | splashShow
  | connectSplashClosed
  | setAuthService
  | windowShow
  | checkForUpdates
  | updateDashboard (park : String)
  | updateImportPage (park : String)
  | updateTitleBar (park : String)
  | monitorMemory
  deriving DecidableEq, Repr

/-- The environment a run of main.py executes in: which collaborator calls
succeed, which raise (and with which exception message), and the values the
configuration provider and the window hand back.  A field of type
`Option String` is `none` when the corresponding call returns normally and
`some e` when it raises an exception whose string form is `e`. -/
structure Env where
  dataPath : String
  iconsDir : String
  gifDir : String
  loadError : Option String
  gifDirExists : Bool
  mkdirError : Option String
  logoExists : Bool
  fallbackLogoExists : Bool
  hasSetAuthService : Bool
  setAuthServiceError : Option String
  showError : Option String
  updatesError : Option String
  selectedPark : String
  dashboardError : Option String
  hasImportPage : Bool
  importError : Option String
  titleBarError : Option String
  memoryError : Option String
  deriving DecidableEq, Repr

/-- Checks whether the pattern is an initial segment of the list. -/
def leadsWith : List Char → List Char → Bool
  | [], _ => true
  | _ :: _, [] => false
  | a :: as, b :: bs => a == b && leadsWith as bs

/-- Checks whether the pattern occurs as a contiguous run of the list. -/
def occursIn (pat : List Char) : List Char → Bool
  | [] => leadsWith pat []
  | c :: cs => leadsWith pat (c :: cs) || occursIn pat cs

/-- Embeds the Python substring test `pat in s`. -/
def strContains (s pat : String) : Bool :=
  occursIn pat.data s.data

/-- Modelled from the spec: the `OperationOutcome` of one attempt performed
by the Resilient Operation Executor (spec section 3).  The executor itself,
`ErrorRecoveryManager.file_operation_retry` of core/services/error_recovery,
is not part of the source tree. -/
inductive OperationOutcome (α : Type) where
  | success (value : α)
  | retryableFailure (cause : String)
  | terminalFailure (cause : String)
  deriving DecidableEq, Repr

/-- True exactly on a successful attempt outcome. -/
def OperationOutcome.isSuccess {α : Type} : OperationOutcome α → Bool
  | OperationOutcome.success _ => true
  | _ => false

/-- True exactly on a terminal attempt outcome. -/
def OperationOutcome.isTerminal {α : Type} : OperationOutcome α → Bool
  | OperationOutcome.terminalFailure _ => true
  | _ => false

/-- True exactly on a normal (non-raising) result. -/
def exceptOk {α : Type} : Except String α → Bool
  | Except.ok _ => true
  | Except.error _ => false

/-- Modelled from the spec: the attempt loop of the Resilient Operation
Executor (spec section 4.1).  `op k` is the outcome of the k-th invocation
of the wrapped operation, `k` the index of the next attempt, and the last
argument the remaining attempt budget.  The result pairs the final value
(a `TerminalFailure` is an `Except.error`) with the number of invocations
actually performed: a success returns at once, a terminal failure is never
retried, a retryable failure consumes one attempt and retries. -/
def runAttempts {α : Type} (op : Nat → OperationOutcome α) :
    Nat → Nat → Except String α × Nat
  | _, 0 => (Except.error "TerminalFailure: attempts exhausted", 0)
  | k, n + 1 =>
    match op k with
    | OperationOutcome.success v => (Except.ok v, 1)
    | OperationOutcome.terminalFailure c => (Except.error c, 1)
    | OperationOutcome.retryableFailure _ =>
      let r := runAttempts op (k + 1) n
      (r.1, r.2 + 1)

/-- Modelled from the spec: `ErrorRecoveryManager.file_operation_retry`
(core/services/error_recovery, absent from the source tree), per spec
section 4.1: execute up to `maxAttempts` attempts of the wrapped operation,
retrying retryable failures, propagating a `TerminalFailure` on a terminal
failure or on exhaustion, and passing a normal return through unchanged. -/
def file_operation_retry {α : Type} (maxAttempts : Nat)
    (op : Nat → OperationOutcome α) : Except String α × Nat :=
  runAttempts op 0 maxAttempts

/-- Embeds `load_data` of src/main.py (lines 35-55): the body of one attempt
of the decorated function.  The body wraps the data-manager call in
`try/except`: on an exception it logs an error event; if the exception text
contains "No such file or directory" it logs an info event, creates the
default data and returns `True`; otherwise it returns `False`.  Because the
body catches every exception and the collaborators reached from the handler
are out of scope (modelled as returning normally), the body never raises, so
the `file_operation_retry` decorator passes its Boolean result through on
the first attempt. -/
def load_data (env : Env) : List Event × Bool :=
  match env.loadError with
  | none => ([Event.loadCall env.dataPath], true)
  | some e =>
    let t := [Event.loadCall env.dataPath,
              Event.log "Data Loading Error" ("Error loading data: " ++ e) Level.error]
    if strContains e "No such file or directory" then
      (t ++ [Event.log "Data Creation" "Creating default data file..." Level.info,
             Event.createDefaultData], true)
    else
      (t, false)

/-- Embeds `create_empty_data_fallback` of src/main.py (lines 57-88): log a
warning event, create the minimal default data, and show a warning dialog to
the user.  (The inner implementation is wrapped in `file_operation_retry`;
its body raises only through out-of-scope collaborators, so it completes on
the first attempt.) -/
def create_empty_data_fallback : List Event :=
  [Event.log "Data Loading Fallback"
     "Creating empty default data to allow application to start" Level.warning,
   Event.createDefaultData,
   Event.warnDialog "Data Loading Error"
     ("Failed to load application data. The application will start with minimal functionality.\n\n" ++
      "Please check the log file for details and contact support if the problem persists.")]

/-- Content of the critical dialog shown when the GIF directory is missing
and cannot be created (src/main.py lines 128-133). -/
def gifFatalDialogText (dir e : String) : String :=
  "GIF directory not found and could not be created: " ++ dir ++
    "\n\nError: " ++ e ++ "\n\nThe application will now exit."

/-- Embeds the GIF-directory block of `main` (src/main.py lines 121-134).
Returns the events of the block and `some code` when the block calls
`sys.exit(code)`. -/
def gifResolution (env : Env) : List Event × Option Nat :=
  if env.gifDirExists then ([], none)
  else
    match env.mkdirError with
    | none =>
      ([Event.mkdirCall env.gifDir,
        Event.log "Resource Creation"
          ("Created missing GIF directory: " ++ env.gifDir) Level.info], none)
    | some e =>
      ([Event.log "Resource Error"
          ("GIF directory not found and could not be created: " ++ env.gifDir) Level.error,
        Event.log "Resource Error" ("Error: " ++ e) Level.error,
        Event.criticalDialog "Resource Error" (gifFatalDialogText env.gifDir e)],
       some 1)

/-- Content of the critical dialog shown when both the logo and the fallback
logo are missing (src/main.py lines 144-149). -/
def logoFatalDialogText (logoPath : String) : String :=
  "Logo file not found: " ++ logoPath ++
    "\n\nNo fallback logo available. The application will now exit."

/-- Embeds the logo block of `main` (src/main.py lines 136-150).  Returns
the events of the block, `some code` when the block calls `sys.exit(code)`,
and the logo path in effect afterwards (reassigned to the fallback when the
primary logo is absent and the fallback exists). -/
def logoResolution (env : Env) : List Event × Option Nat × String :=
  let logoPath := env.iconsDir ++ "/splash_icon.svg"
  if env.logoExists then ([], none, logoPath)
  else
    let warn := [Event.log "Resource Warning"
                   ("Logo file not found: " ++ logoPath) Level.warning]
    let fallbackLogo := env.iconsDir ++ "/fallback_logo.svg"
    if env.fallbackLogoExists then
      (warn ++ [Event.log "Resource Fallback"
                  ("Using fallback logo: " ++ fallbackLogo) Level.info],
       none, fallbackLogo)
    else
      (warn ++ [Event.criticalDialog "Resource Error" (logoFatalDialogText logoPath)],
       some 1, logoPath)

/-- Outcome of the synchronous part of `main`: either `sys.exit(code)` was
called, or control reached `app.exec()` and the process entered its event
loop. -/
inductive MainOutcome where
  | exitCode (n : Nat)
  | eventLoop
  deriving DecidableEq, Repr

/-- Embeds the catch block of the dashboard-initialization task of
`on_splash_closed` (src/main.py lines 208-221): one error log event and one
non-blocking warning dialog. -/
def dashboardCatch (e : String) : List Event :=
  [Event.log "Dashboard Initialization Error"
     ("Error initializing dashboard: " ++ e) Level.error,
   Event.warnDialog "Dashboard Error"
     ("Error initializing the dashboard. Some features may not work correctly.\n\n" ++
      "Please check the application log for details.")]

/-- Embeds activation task 4 of `on_splash_closed` (src/main.py lines
196-221): read the selected park from the combo box; when it is non-empty,
update the dashboard, then the import page when the central content has an
`import_raw_data_page` attribute, then the title bar.  The whole block is
one `try/except`: the first raising call jumps to `dashboardCatch` and the
remaining updates are skipped. -/
def dashboardTask (env : Env) : List Event :=
  if env.selectedPark == "" then []
  else
    match env.dashboardError with
    | some e => dashboardCatch e
    | none =>
      let d := [Event.updateDashboard env.selectedPark]
      if env.hasImportPage then
        match env.importError with
        | some e => d ++ dashboardCatch e
        | none =>
          match env.titleBarError with
          | some e => d ++ [Event.updateImportPage env.selectedPark] ++ dashboardCatch e
          | none => d ++ [Event.updateImportPage env.selectedPark,
                          Event.updateTitleBar env.selectedPark]
      else
        match env.titleBarError with
        | some e => d ++ dashboardCatch e
        | none => d ++ [Event.updateTitleBar env.selectedPark]

/-- Embeds activation task 3 of `on_splash_closed` (src/main.py lines
184-193): `window.check_for_updates()` in a `try/except` that logs one
error event on failure. -/
def updateCheckTask (env : Env) : List Event :=
  match env.updatesError with
  | none => [Event.checkForUpdates]
  | some e => [Event.log "Update Check Error"
                 ("Error checking for updates: " ++ e) Level.error]

/-- Embeds activation task 5 of `on_splash_closed` (src/main.py lines
224-233): memory-usage sampling in a `try/except` that logs one warning
event on failure. -/
def memoryTask (env : Env) : List Event :=
  match env.memoryError with
  | none => [Event.monitorMemory]
  | some e => [Event.log "Memory Monitoring Error"
                 ("Error monitoring memory usage: " ++ e) Level.warning]

/-- Embeds `on_splash_closed` of src/main.py (lines 172-233).  Task 1 (bind
the auth service when the window supports it, lines 178-179) and task 2
(`window.show()`, line 181) are not wrapped in any `try/except` in the
source, so an exception there escapes the handler: the second component is
`some e` exactly when the handler itself raises `e`, and the first is the
trace of the events that happened before that. -/
def on_splash_closed (env : Env) : List Event × Option String :=
  match (if env.hasSetAuthService then env.setAuthServiceError else none) with
  | some e => ([], some e)
  | none =>
    let t1 : List Event := if env.hasSetAuthService then [Event.setAuthService] else []
    match env.showError with
    | some e => (t1, some e)
    | none =>
      (t1 ++ [Event.windowShow] ++ updateCheckTask env ++ dashboardTask env ++ memoryTask env,
       none)

/-- Embeds `main` of src/main.py (lines 90-237), the synchronous startup
sequence: logging init, data bootstrap, window icon, resource resolution
(GIF directory then logo), auth-service init, window construction, splash
configuration and display, and registration of the `on_splash_closed`
callback.  The body of `load_data` catches every exception and returns a
Boolean, so the decorated call returns normally and the `except` branch of
lines 108-110 (which would call `create_empty_data_fallback`) is
unreachable; the Boolean result is discarded, as in the source.  The
`handle_critical_errors` boundary (core/services/application_error_handler,
out of scope) is transparent here because the embedded `main` raises no
exception: `sys.exit` outcomes are reported as `MainOutcome.exitCode`. -/
def main (env : Env) : List Event × MainOutcome :=
  let t0 := [Event.stage StartupStage.LoggingInit]
  let ld := load_data env
  let t1 := t0 ++ [Event.stage StartupStage.DataBootstrap] ++ ld.1
  let t2 := t1 ++ [Event.setWindowIcon (env.iconsDir ++ "/logo_app.ico")]
  let g := gifResolution env
  let t3 := t2 ++ [Event.stage StartupStage.ResourceResolution] ++ g.1
  match g.2 with
  | some c => (t3, MainOutcome.exitCode c)
  | none =>
    let lr := logoResolution env
    let t4 := t3 ++ lr.1
    match lr.2.1 with
    | some c => (t4, MainOutcome.exitCode c)
    | none =>
      let t5 := t4 ++ [Event.stage StartupStage.AuthInit, Event.authServiceInit,
                       Event.stage StartupStage.WindowConstruction, Event.windowConstructed,
                       Event.stage StartupStage.LoadingScreenDisplay,
                       Event.splashConfigured env.gifDir lr.2.2,
                       Event.splashShow, Event.connectSplashClosed]
      (t5, MainOutcome.eventLoop)

/-- A whole run of the application: the synchronous `main`, followed — only
when `main` reached the event loop and the splash screen signals its
completion — by the deferred activation handler.  The `stage
DeferredActivation` marker records the point where the handler fires. -/
def appRun (env : Env) (splashFires : Bool) : List Event :=
  let m := main env
  match m.2 with
  | MainOutcome.eventLoop =>
    if splashFires then
      m.1 ++ Event.stage StartupStage.DeferredActivation :: (on_splash_closed env).1
    else m.1
  | MainOutcome.exitCode _ => m.1

/-- Recognizes a log event with the given category and level. -/
def isLogOf (cat : String) (lvl : Level) : Event → Bool
  | Event.log c _ l => c == cat && l == lvl
  | _ => false

/-- Number of log events with the given category and level in a trace. -/
def countLog (t : List Event) (cat : String) (lvl : Level) : Nat :=
  t.countP (isLogOf cat lvl)

/-- Recognizes a critical (blocking) dialog event. -/
def isCritical : Event → Bool
  | Event.criticalDialog _ _ => true
  | _ => false

/-- Number of critical dialogs in a trace. -/
def countCritical (t : List Event) : Nat :=
  t.countP isCritical

/-- Recognizes a non-blocking warning dialog event. -/
def isWarnDialog : Event → Bool
  | Event.warnDialog _ _ => true
  | _ => false

/-- Number of warning dialogs in a trace. -/
def countWarnDialog (t : List Event) : Nat :=
  t.countP isWarnDialog

/-- Contents of the critical dialogs of a trace, in order. -/
def criticalContents (t : List Event) : List String :=
  t.filterMap fun e => match e with
    | Event.criticalDialog _ c => some c
    | _ => none

/-- The stage markers of a trace, in order. -/
def stageMarkers (t : List Event) : List StartupStage :=
  t.filterMap fun e => match e with
    | Event.stage s => some s
    | _ => none

/-- The fixed stage order of the startup sequencer (spec sections 3, 4.5). -/
def stagePlan : List StartupStage :=
  [StartupStage.LoggingInit, StartupStage.DataBootstrap, StartupStage.ResourceResolution,
   StartupStage.AuthInit, StartupStage.WindowConstruction, StartupStage.LoadingScreenDisplay,
   StartupStage.DeferredActivation]

/-- A nominal environment in which every collaborator call succeeds and
every resource exists. -/
def envBase : Env :=
  { dataPath := "data/turbine_info.csv"
    iconsDir := "icons"
    gifDir := "gifs"
    loadError := none
    gifDirExists := true
    mkdirError := none
    logoExists := true
    fallbackLogoExists := false
    hasSetAuthService := true
    setAuthServiceError := none
    showError := none
    updatesError := none
    selectedPark := "Park A"
    dashboardError := none
    hasImportPage := true
    importError := none
    titleBarError := none
    memoryError := none }

/-- Environment of claim C1: the data-manager load raises an exception whose
text does not mention a missing file. -/
def c1Env : Env := { envBase with loadError := some "Permission denied" }

/-- Environment of claim C2: the data-manager load raises a missing-file
exception. -/
def c2Env : Env := { envBase with loadError := some "No such file or directory" }

/-- Environment of claim C7: the data-manager load raises a missing-file
exception with a longer message. -/
def c7Env : Env :=
  { envBase with loadError := some "CSV missing: No such file or directory: data.csv" }

/-- Environment of claim C3: binding the auth service to the window raises. -/
def c3Env : Env := { envBase with setAuthServiceError := some "bind failed" }

/-- Environment of claim C10: the dashboard update raises. -/
def c10Env : Env := { envBase with dashboardError := some "dashboard unavailable" }

/-- A sample operation for the retry executor: retryable failures on the
first two attempts, success on the third. -/
def sampleOp : Nat → OperationOutcome Nat :=
  fun k => if k < 2 then OperationOutcome.retryableFailure "transient" else OperationOutcome.success 7

end PYE3

namespace PYE3

theorem leadsWith_self_append (p ys : List Char) : leadsWith p (p ++ ys) = true := by
  induction p with
  | nil => rfl
  | cons a as ih => simp [leadsWith, ih]

theorem occursIn_of_leadsWith (p l : List Char) (h : leadsWith p l = true) :
    occursIn p l = true := by
  cases l with
  | nil =>
    cases p with
    | nil => rfl
    | cons a as => simp [leadsWith] at h
  | cons c cs => simp [occursIn, h]

theorem occursIn_append_left (p xs zs : List Char) (h : occursIn p zs = true) :
    occursIn p (xs ++ zs) = true := by
  induction xs with
  | nil => simpa using h
  | cons x xs ih => simp [occursIn, ih]

theorem strData_append (s t : String) : (s ++ t).data = s.data ++ t.data := by
  cases s; cases t; rfl

theorem strContains_mid (a x b : String) : strContains (a ++ (x ++ b)) x = true := by
  unfold strContains
  rw [strData_append, strData_append]
  exact occursIn_append_left _ _ _
    (occursIn_of_leadsWith _ _ (leadsWith_self_append x.data b.data))

theorem strAppend_assoc (a b c : String) : a ++ b ++ c = a ++ (b ++ c) := by
  have h : (a ++ b ++ c).data = (a ++ (b ++ c)).data := by
    rw [strData_append, strData_append, strData_append, strData_append, List.append_assoc]
  calc a ++ b ++ c = String.mk (a ++ b ++ c).data := rfl
    _ = String.mk (a ++ (b ++ c)).data := by rw [h]
    _ = a ++ (b ++ c) := rfl

theorem countLog_load (env : Env) (cat : String) (lvl : Level)
    (h1 : ("Data Loading Error" == cat && Level.error == lvl) = false)
    (h2 : ("Data Creation" == cat && Level.info == lvl) = false) :
    countLog (load_data env).1 cat lvl = 0 := by
  unfold load_data
  cases env.loadError with
  | none => rfl
  | some e =>
    by_cases h : strContains e "No such file or directory" = true <;>
      simp [h, countLog, isLogOf, h1, h2, List.countP_cons, List.countP_append]

theorem countCritical_load (env : Env) : countCritical (load_data env).1 = 0 := by
  unfold load_data
  cases env.loadError with
  | none => rfl
  | some e =>
    by_cases h : strContains e "No such file or directory" = true <;>
      simp [h, countCritical, isCritical, List.countP_cons, List.countP_append]

theorem countWarnDialog_load (env : Env) : countWarnDialog (load_data env).1 = 0 := by
  unfold load_data
  cases env.loadError with
  | none => rfl
  | some e =>
    by_cases h : strContains e "No such file or directory" = true <;>
      simp [h, countWarnDialog, isWarnDialog, List.countP_cons, List.countP_append]

theorem stageMarkers_load (env : Env) : stageMarkers (load_data env).1 = [] := by
  unfold load_data
  cases env.loadError with
  | none => rfl
  | some e =>
    by_cases h : strContains e "No such file or directory" = true <;>
      simp [h, stageMarkers]

end PYE3

namespace PYE3

theorem runAttempts_spec {α : Type} (op : Nat → OperationOutcome α) :
    ∀ (n k : Nat),
      (runAttempts op k n).2 ≤ n ∧
      (exceptOk (runAttempts op k n).1 = false ↔
        ∀ j, j < (runAttempts op k n).2 → (op (k + j)).isSuccess = false) ∧
      (∀ j, j < (runAttempts op k n).2 → (op (k + j)).isTerminal = true →
        (runAttempts op k n).2 = j + 1) := by
  intro n
  induction n with
  | zero =>
    intro k
    refine ⟨Nat.le_refl 0, ?_, ?_⟩
    · constructor
      · intro _ j hj
        exact absurd hj (Nat.not_lt_zero j)
      · intro _
        rfl
    · intro j hj
      exact absurd hj (Nat.not_lt_zero j)
  | succ n ih =>
    intro k
    cases hop : op k with
    | success v =>
      simp only [runAttempts, hop]
      refine ⟨by omega, ?_, ?_⟩
      · constructor
        · intro h
          simp [exceptOk] at h
        · intro h
          have h0 := h 0 (by omega)
          rw [Nat.add_zero, hop] at h0
          simp [OperationOutcome.isSuccess] at h0
      · intro j hj ht
        omega
    | terminalFailure c =>
      simp only [runAttempts, hop]
      refine ⟨by omega, ?_, ?_⟩
      · constructor
        · intro _ j hj
          have hj0 : j = 0 := by omega
          subst hj0
          rw [Nat.add_zero, hop]
          rfl
        · intro _
          rfl
      · intro j hj ht
        omega
    | retryableFailure c =>
      obtain ⟨ih1, ih2, ih3⟩ := ih (k + 1)
      simp only [runAttempts, hop]
      refine ⟨by omega, ?_, ?_⟩
      · constructor
        · intro h j hj
          cases j with
          | zero =>
            rw [Nat.add_zero, hop]
            rfl
          | succ j' =>
            have hjj := ih2.mp h j' (by omega)
            rw [show k + 1 + j' = k + (j' + 1) by omega] at hjj
            exact hjj
        · intro h
          apply ih2.mpr
          intro j hj
          have hjj := h (j + 1) (by omega)
          rw [show k + (j + 1) = k + 1 + j by omega] at hjj
          exact hjj
      · intro j hj ht
        cases j with
        | zero =>
          rw [Nat.add_zero, hop] at ht
          simp [OperationOutcome.isTerminal] at ht
        | succ j' =>
          rw [show k + (j' + 1) = k + 1 + j' by omega] at ht
          have hr := ih3 j' (by omega) ht
          omega

/-- Claim C8: for every operation wrapped by the spec-modelled retry
executor with maximum attempt count N, the operation is invoked at most N
times, a TerminalFailure is propagated to the caller exactly when every
attempt actually performed fails, and an attempt that fails terminally is
never retried (it is the last invocation). -/
theorem retry_executor_contract {α : Type} (N : Nat) (op : Nat → OperationOutcome α) :
    (file_operation_retry N op).2 ≤ N ∧
    (exceptOk (file_operation_retry N op).1 = false ↔
      ∀ k, k < (file_operation_retry N op).2 → (op k).isSuccess = false) ∧
    (∀ k, k < (file_operation_retry N op).2 → (op k).isTerminal = true →
      (file_operation_retry N op).2 = k + 1) := by
  have h := runAttempts_spec op N 0
  simpa [file_operation_retry] using h

/-- Witness for retry_executor_contract at a concrete operation. -/
theorem retry_executor_contract_witness :
    (file_operation_retry 3 sampleOp).2 ≤ 3 :=
  (retry_executor_contract 3 sampleOp).1

/-- Claim C1 (code evidence): on a data-loading failure whose message does
not mention a missing file, load_data logs the error and returns False, but
main discards the result and — since load_data raises nothing — never
reaches the except branch: no default dataset is synthesized, no fallback
warning is logged or shown, and startup continues to the event loop with an
uninitialized data model. -/
theorem load_failure_not_recovered :
    countLog (main c1Env).1 "Data Loading Error" Level.error = 1 ∧
    (load_data c1Env).2 = false ∧
    Event.createDefaultData ∉ (main c1Env).1 ∧
    countWarnDialog (main c1Env).1 = 0 ∧
    countLog (main c1Env).1 "Data Loading Fallback" Level.warning = 0 ∧
    (main c1Env).2 = MainOutcome.eventLoop := by
  decide

/-- Claim C2: when the data path does not exist (the load raises an
exception mentioning "No such file or directory"), load_data logs one
error-level event, then one info-level "Creating default data file..."
event, calls WindFarmDataManager.create_default_data and returns success;
the retry wrapper performs no further attempt on a normal return, and the
startup sequence continues to the event loop when the remaining resources
are present. -/
theorem load_data_missing_file (env : Env) (msg : String)
    (hl : env.loadError = some msg)
    (hm : strContains msg "No such file or directory" = true) :
    (load_data env).1 =
      [Event.loadCall env.dataPath,
       Event.log "Data Loading Error" ("Error loading data: " ++ msg) Level.error,
       Event.log "Data Creation" "Creating default data file..." Level.info,
       Event.createDefaultData] ∧
    (load_data env).2 = true ∧
    file_operation_retry 3 (fun _ => OperationOutcome.success (load_data env).2) =
      (Except.ok true, 1) ∧
    (env.gifDirExists = true → env.logoExists = true →
      (main env).2 = MainOutcome.eventLoop) := by
  have hb : (load_data env).2 = true := by
    simp [load_data, hl, hm]
  refine ⟨by simp [load_data, hl, hm], hb, ?_, ?_⟩
  · rw [hb]
    rfl
  · intro hg hlo
    simp [main, gifResolution, logoResolution, hg, hlo]

/-- Witness for load_data_missing_file at a concrete environment. -/
theorem load_data_missing_file_witness :
    (load_data c2Env).2 = true :=
  (load_data_missing_file c2Env "No such file or directory" rfl (by decide)).2.1

/-- Claim C7 (counterexample): in the file-not-found branch, defaults are
substituted for the primary data but no user-visible warning dialog (and no
dialog at all) is shown during the whole startup sequence. -/
theorem default_data_without_warning_dialog :
    Event.createDefaultData ∈ (main c7Env).1 ∧
    countWarnDialog (main c7Env).1 = 0 ∧
    countCritical (main c7Env).1 = 0 := by
  decide

/-- Claim C7 (amended): the degraded-functionality warning dialog is shown
exactly when defaults are synthesized through create_empty_data_fallback;
the file-not-found branch of load_data synthesizes defaults with log events
only and shows no dialog. -/
theorem fallback_warning_dialog_scope (env : Env) (msg : String)
    (hl : env.loadError = some msg)
    (hm : strContains msg "No such file or directory" = true) :
    Event.createDefaultData ∈ (load_data env).1 ∧
    countWarnDialog (load_data env).1 = 0 ∧
    countWarnDialog create_empty_data_fallback = 1 ∧
    Event.createDefaultData ∈ create_empty_data_fallback := by
  refine ⟨?_, countWarnDialog_load env, by decide, by decide⟩
  simp [load_data, hl, hm]

/-- Witness for fallback_warning_dialog_scope at a concrete environment. -/
theorem fallback_warning_dialog_scope_witness :
    countWarnDialog create_empty_data_fallback = 1 :=
  (fallback_warning_dialog_scope c7Env "CSV missing: No such file or directory: data.csv"
    rfl (by decide)).2.2.1

end PYE3

namespace PYE3

theorem countLog_append (a b : List Event) (cat : String) (lvl : Level) :
    countLog (a ++ b) cat lvl = countLog a cat lvl + countLog b cat lvl :=
  List.countP_append _ _ _

theorem countLog_dashboardTask (env : Env) (cat : String) (lvl : Level)
    (h : ("Dashboard Initialization Error" == cat && Level.error == lvl) = false) :
    countLog (dashboardTask env) cat lvl = 0 := by
  unfold dashboardTask dashboardCatch
  repeat' split
  all_goals simp [countLog, isLogOf, h, List.countP_cons, List.countP_append]

theorem countLog_memoryTask (env : Env) (cat : String) (lvl : Level)
    (h : ("Memory Monitoring Error" == cat && Level.warning == lvl) = false) :
    countLog (memoryTask env) cat lvl = 0 := by
  unfold memoryTask
  split
  · rfl
  · simp [countLog, isLogOf, h, List.countP_cons]

theorem countLog_authBind (b : Bool) (cat : String) (lvl : Level) :
    countLog (if b then [Event.setAuthService] else []) cat lvl = 0 := by
  cases b <;> rfl

/-- Claim C3 (counterexample): when binding the authentication service to
the window raises, the exception escapes the deferred activation handler
with an empty trace: tasks 2 through 5 never run, contradicting the claim
that every numbered task catches its own exception. -/
theorem activation_task1_exception_escapes :
    (on_splash_closed c3Env).2 = some "bind failed" ∧
    (on_splash_closed c3Env).1 = [] ∧
    Event.windowShow ∉ (on_splash_closed c3Env).1 ∧
    Event.monitorMemory ∉ (on_splash_closed c3Env).1 := by
  decide

/-- Claim C3 (amended): tasks 3, 4 and 5 of the deferred activation handler
each catch their own exception, so when tasks 1 and 2 return normally the
handler completes without raising and its trace is the unconditional
concatenation of the five task segments, each determined only by its own
collaborator outcomes; exceptions in task 1 or task 2 are not guarded and
escape the handler (see the counterexample). -/
theorem activation_isolation_amended (env : Env)
    (h1 : env.setAuthServiceError = none)
    (h2 : env.showError = none) :
    (on_splash_closed env).2 = none ∧
    (on_splash_closed env).1 =
      (if env.hasSetAuthService then [Event.setAuthService] else []) ++ [Event.windowShow] ++
        updateCheckTask env ++ dashboardTask env ++ memoryTask env ∧
    (memoryTask env).length = 1 := by
  have hscr : (if env.hasSetAuthService then env.setAuthServiceError else none) = none := by
    rw [h1]
    exact ite_self none
  refine ⟨?_, ?_, ?_⟩
  · simp [on_splash_closed, hscr, h2]
  · simp [on_splash_closed, hscr, h2]
  · unfold memoryTask
    split <;> rfl

/-- Witness for activation_isolation_amended at an environment where tasks
3, 4 and 5 all fail. -/
theorem activation_isolation_amended_witness :
    (on_splash_closed { envBase with
      updatesError := some "upd down"
      dashboardError := some "dash down"
      memoryError := some "mem probe down" }).2 = none :=
  (activation_isolation_amended _ rfl rfl).1

/-- Claim C6: when the update check (task 3) raises, the handler logs
exactly one error-level entry for it, and tasks 4 and 5 still execute with
traces determined only by their own collaborator outcomes — identical to
what they produce when the update check succeeds. -/
theorem update_check_failure_isolated (env : Env) (e : String)
    (h1 : env.setAuthServiceError = none)
    (h2 : env.showError = none)
    (h3 : env.updatesError = some e) :
    (on_splash_closed env).2 = none ∧
    (on_splash_closed env).1 =
      (if env.hasSetAuthService then [Event.setAuthService] else []) ++ [Event.windowShow] ++
        [Event.log "Update Check Error" ("Error checking for updates: " ++ e) Level.error] ++
        dashboardTask env ++ memoryTask env ∧
    countLog (on_splash_closed env).1 "Update Check Error" Level.error = 1 ∧
    dashboardTask { env with updatesError := none } = dashboardTask env ∧
    memoryTask { env with updatesError := none } = memoryTask env := by
  have hscr : (if env.hasSetAuthService then env.setAuthServiceError else none) = none := by
    rw [h1]
    exact ite_self none
  have htr : (on_splash_closed env).1 =
      (if env.hasSetAuthService then [Event.setAuthService] else []) ++ [Event.windowShow] ++
        [Event.log "Update Check Error" ("Error checking for updates: " ++ e) Level.error] ++
        dashboardTask env ++ memoryTask env := by
    simp [on_splash_closed, hscr, h2, updateCheckTask, h3]
  refine ⟨by simp [on_splash_closed, hscr, h2], htr, ?_, rfl, rfl⟩
  rw [htr]
  rw [countLog_append, countLog_append, countLog_append, countLog_append]
  rw [countLog_authBind, countLog_dashboardTask env _ _ (by decide),
      countLog_memoryTask env _ _ (by decide)]
  simp [countLog, isLogOf, List.countP_cons]

/-- Witness for update_check_failure_isolated at a concrete environment. -/
theorem update_check_failure_isolated_witness :
    countLog (on_splash_closed { envBase with updatesError := some "network down" }).1
      "Update Check Error" Level.error = 1 :=
  (update_check_failure_isolated { envBase with updatesError := some "network down" }
    "network down" rfl rfl rfl).2.2.1

/-- Claim C10 (counterexample): with a non-empty selected park, a raising
dashboard update means neither the dashboard nor the title bar records a
completed update, and a warning dialog is produced — contradicting the
claim that the dashboard and title bar are always updated when the
selection is non-empty. -/
theorem dashboard_failure_skips_updates :
    c10Env.selectedPark = "Park A" ∧
    Event.updateTitleBar "Park A" ∉ dashboardTask c10Env ∧
    Event.updateDashboard "Park A" ∉ dashboardTask c10Env ∧
    countWarnDialog (dashboardTask c10Env) = 1 := by
  decide

/-- Claim C10 (amended): in activation task 4, an empty selection text
performs no update and produces no log entry or dialog; a non-empty
selection with no raising update call updates the dashboard, then
the import page exactly when the central content has an import_raw_data_page
attribute, then the title bar; and a raising dashboard update skips the
remaining updates, producing one error log entry and one warning dialog. -/
theorem dashboard_task_contract (env : Env) :
    (env.selectedPark = "" → dashboardTask env = []) ∧
    (env.selectedPark ≠ "" → env.dashboardError = none → env.importError = none →
      env.titleBarError = none →
      dashboardTask env =
        [Event.updateDashboard env.selectedPark] ++
          (if env.hasImportPage then [Event.updateImportPage env.selectedPark] else []) ++
          [Event.updateTitleBar env.selectedPark]) ∧
    (∀ e, env.selectedPark ≠ "" → env.dashboardError = some e →
      dashboardTask env = dashboardCatch e) := by
  refine ⟨?_, ?_, ?_⟩
  · intro h
    simp [dashboardTask, h]
  · intro hne hd hi ht
    cases hip : env.hasImportPage <;>
      simp [dashboardTask, beq_iff_eq, hne, hd, hi, ht, hip]
  · intro e hne hd
    simp [dashboardTask, beq_iff_eq, hne, hd]

/-- Witness for dashboard_task_contract at the nominal environment. -/
theorem dashboard_task_contract_witness :
    dashboardTask envBase =
      [Event.updateDashboard "Park A"] ++
        (if envBase.hasImportPage then [Event.updateImportPage "Park A"] else []) ++
        [Event.updateTitleBar "Park A"] :=
  (dashboard_task_contract envBase).2.1 (by decide) rfl rfl rfl

end PYE3

namespace PYE3

theorem countCritical_append (a b : List Event) :
    countCritical (a ++ b) = countCritical a + countCritical b :=
  List.countP_append _ _ _

theorem criticalContents_append (a b : List Event) :
    criticalContents (a ++ b) = criticalContents a ++ criticalContents b :=
  List.filterMap_append _ _ _

theorem criticalContents_load (env : Env) : criticalContents (load_data env).1 = [] := by
  unfold load_data
  cases env.loadError with
  | none => rfl
  | some e =>
    by_cases h : strContains e "No such file or directory" = true <;>
      simp [h, criticalContents]

theorem main_gif_created (env : Env)
    (hg : env.gifDirExists = false) (hmk : env.mkdirError = none)
    (hlo : env.logoExists = true) :
    main env =
      ([Event.stage StartupStage.LoggingInit, Event.stage StartupStage.DataBootstrap] ++
        (load_data env).1 ++
        [Event.setWindowIcon (env.iconsDir ++ "/logo_app.ico"),
         Event.stage StartupStage.ResourceResolution,
         Event.mkdirCall env.gifDir,
         Event.log "Resource Creation"
           ("Created missing GIF directory: " ++ env.gifDir) Level.info,
         Event.stage StartupStage.AuthInit, Event.authServiceInit,
         Event.stage StartupStage.WindowConstruction, Event.windowConstructed,
         Event.stage StartupStage.LoadingScreenDisplay,
         Event.splashConfigured env.gifDir (env.iconsDir ++ "/splash_icon.svg"),
         Event.splashShow, Event.connectSplashClosed],
       MainOutcome.eventLoop) := by
  simp [main, gifResolution, logoResolution, hg, hmk, hlo]

theorem main_gif_fatal (env : Env) (e : String)
    (hg : env.gifDirExists = false) (hmk : env.mkdirError = some e) :
    main env =
      ([Event.stage StartupStage.LoggingInit, Event.stage StartupStage.DataBootstrap] ++
        (load_data env).1 ++
        [Event.setWindowIcon (env.iconsDir ++ "/logo_app.ico"),
         Event.stage StartupStage.ResourceResolution,
         Event.log "Resource Error"
           ("GIF directory not found and could not be created: " ++ env.gifDir) Level.error,
         Event.log "Resource Error" ("Error: " ++ e) Level.error,
         Event.criticalDialog "Resource Error" (gifFatalDialogText env.gifDir e)],
       MainOutcome.exitCode 1) := by
  simp [main, gifResolution, hg, hmk]

theorem main_logo_fallback (env : Env)
    (hg : env.gifDirExists = true) (hlo : env.logoExists = false)
    (hfb : env.fallbackLogoExists = true) :
    main env =
      ([Event.stage StartupStage.LoggingInit, Event.stage StartupStage.DataBootstrap] ++
        (load_data env).1 ++
        [Event.setWindowIcon (env.iconsDir ++ "/logo_app.ico"),
         Event.stage StartupStage.ResourceResolution,
         Event.log "Resource Warning"
           ("Logo file not found: " ++ (env.iconsDir ++ "/splash_icon.svg")) Level.warning,
         Event.log "Resource Fallback"
           ("Using fallback logo: " ++ (env.iconsDir ++ "/fallback_logo.svg")) Level.info,
         Event.stage StartupStage.AuthInit, Event.authServiceInit,
         Event.stage StartupStage.WindowConstruction, Event.windowConstructed,
         Event.stage StartupStage.LoadingScreenDisplay,
         Event.splashConfigured env.gifDir (env.iconsDir ++ "/fallback_logo.svg"),
         Event.splashShow, Event.connectSplashClosed],
       MainOutcome.eventLoop) := by
  simp [main, gifResolution, logoResolution, hg, hlo, hfb]

theorem main_logo_fatal (env : Env)
    (hg : env.gifDirExists = true) (hlo : env.logoExists = false)
    (hfb : env.fallbackLogoExists = false) :
    main env =
      ([Event.stage StartupStage.LoggingInit, Event.stage StartupStage.DataBootstrap] ++
        (load_data env).1 ++
        [Event.setWindowIcon (env.iconsDir ++ "/logo_app.ico"),
         Event.stage StartupStage.ResourceResolution,
         Event.log "Resource Warning"
           ("Logo file not found: " ++ (env.iconsDir ++ "/splash_icon.svg")) Level.warning,
         Event.criticalDialog "Resource Error"
           (logoFatalDialogText (env.iconsDir ++ "/splash_icon.svg"))],
       MainOutcome.exitCode 1) := by
  simp [main, gifResolution, logoResolution, hg, hlo, hfb]

/-- Claim C4: when the GIF directory is absent but creatable, the sequencer
creates it, logs exactly one info-level creation event and continues (to
the event loop when the logo is also present); when it is absent and the
creation raises, the sequencer logs the error, shows exactly one critical
dialog whose content contains the directory path and the error string, and
exits with code 1. -/
theorem gif_dir_resolution (env : Env) (e : String)
    (hg : env.gifDirExists = false) :
    (env.mkdirError = none → env.logoExists = true →
      countLog (main env).1 "Resource Creation" Level.info = 1 ∧
      Event.mkdirCall env.gifDir ∈ (main env).1 ∧
      (main env).2 = MainOutcome.eventLoop) ∧
    (env.mkdirError = some e →
      countCritical (main env).1 = 1 ∧
      criticalContents (main env).1 = [gifFatalDialogText env.gifDir e] ∧
      strContains (gifFatalDialogText env.gifDir e) env.gifDir = true ∧
      strContains (gifFatalDialogText env.gifDir e) e = true ∧
      countLog (main env).1 "Resource Error" Level.error = 2 ∧
      (main env).2 = MainOutcome.exitCode 1) := by
  constructor
  · intro hmk hlo
    rw [main_gif_created env hg hmk hlo]
    refine ⟨?_, ?_, rfl⟩
    · rw [countLog_append, countLog_append,
          countLog_load env _ _ (by decide) (by decide)]
      simp [countLog, isLogOf, List.countP_cons]
    · simp
  · intro hmk
    rw [main_gif_fatal env e hg hmk]
    refine ⟨?_, ?_, ?_, ?_, ?_, rfl⟩
    · rw [countCritical_append, countCritical_append, countCritical_load]
      simp [countCritical, isCritical, List.countP_cons]
    · rw [criticalContents_append, criticalContents_append, criticalContents_load]
      simp [criticalContents]
    · have h : gifFatalDialogText env.gifDir e =
          "GIF directory not found and could not be created: " ++
            (env.gifDir ++ ("\n\nError: " ++ e ++ "\n\nThe application will now exit.")) := by
        unfold gifFatalDialogText
        simp only [strAppend_assoc]
      rw [h]
      exact strContains_mid _ _ _
    · have h : gifFatalDialogText env.gifDir e =
          ("GIF directory not found and could not be created: " ++ env.gifDir ++ "\n\nError: ") ++
            (e ++ "\n\nThe application will now exit.") := by
        unfold gifFatalDialogText
        simp only [strAppend_assoc]
      rw [h]
      exact strContains_mid _ _ _
    · rw [countLog_append, countLog_append,
          countLog_load env _ _ (by decide) (by decide)]
      simp [countLog, isLogOf, List.countP_cons]

/-- Witness for gif_dir_resolution at a concrete environment where the
directory is absent but creatable. -/
theorem gif_dir_resolution_witness :
    (main { envBase with gifDirExists := false }).2 = MainOutcome.eventLoop :=
  ((gif_dir_resolution { envBase with gifDirExists := false } "x" rfl).1 rfl rfl).2.2

/-- Claim C5: when the logo asset is absent but the fallback asset exists,
resource resolution uses the fallback path for the splash screen, logs one
fallback event and continues; when both are absent, the sequence shows a
critical dialog and exits with a non-zero code. -/
theorem logo_fallback_resolution (env : Env)
    (hg : env.gifDirExists = true) (hlo : env.logoExists = false) :
    (env.fallbackLogoExists = true →
      Event.splashConfigured env.gifDir (env.iconsDir ++ "/fallback_logo.svg") ∈ (main env).1 ∧
      countLog (main env).1 "Resource Fallback" Level.info = 1 ∧
      countLog (main env).1 "Resource Warning" Level.warning = 1 ∧
      (main env).2 = MainOutcome.eventLoop) ∧
    (env.fallbackLogoExists = false →
      countCritical (main env).1 = 1 ∧
      criticalContents (main env).1 =
        [logoFatalDialogText (env.iconsDir ++ "/splash_icon.svg")] ∧
      (main env).2 = MainOutcome.exitCode 1) := by
  constructor
  · intro hfb
    rw [main_logo_fallback env hg hlo hfb]
    refine ⟨by simp, ?_, ?_, rfl⟩
    · rw [countLog_append, countLog_append,
          countLog_load env _ _ (by decide) (by decide)]
      simp [countLog, isLogOf, List.countP_cons]
    · rw [countLog_append, countLog_append,
          countLog_load env _ _ (by decide) (by decide)]
      simp [countLog, isLogOf, List.countP_cons]
  · intro hfb
    rw [main_logo_fatal env hg hlo hfb]
    refine ⟨?_, ?_, rfl⟩
    · rw [countCritical_append, countCritical_append, countCritical_load]
      simp [countCritical, isCritical, List.countP_cons]
    · rw [criticalContents_append, criticalContents_append, criticalContents_load]
      simp [criticalContents]

/-- Witness for logo_fallback_resolution at a concrete environment with the
fallback asset present. -/
theorem logo_fallback_resolution_witness :
    (main { envBase with logoExists := false, fallbackLogoExists := true }).2 =
      MainOutcome.eventLoop :=
  ((logo_fallback_resolution { envBase with logoExists := false, fallbackLogoExists := true }
    rfl rfl).1 rfl).2.2.2

end PYE3

namespace PYE3

theorem stageMarkers_append (a b : List Event) :
    stageMarkers (a ++ b) = stageMarkers a ++ stageMarkers b :=
  List.filterMap_append _ _ _

theorem stageMarkers_gifRes (env : Env) : stageMarkers (gifResolution env).1 = [] := by
  unfold gifResolution
  repeat' split
  all_goals simp [stageMarkers]

theorem stageMarkers_logoRes (env : Env) : stageMarkers (logoResolution env).1 = [] := by
  unfold logoResolution
  repeat' split
  all_goals simp [stageMarkers]

theorem stageMarkers_handler (env : Env) : stageMarkers (on_splash_closed env).1 = [] := by
  unfold on_splash_closed updateCheckTask dashboardTask dashboardCatch memoryTask
  repeat' split
  all_goals simp [stageMarkers]

theorem gifRes_snd (env : Env) :
    (gifResolution env).2 = none ∨ (gifResolution env).2 = some 1 := by
  unfold gifResolution
  repeat' split
  all_goals simp

theorem logoRes_snd (env : Env) :
    (logoResolution env).2.1 = none ∨ (logoResolution env).2.1 = some 1 := by
  unfold logoResolution
  repeat' split
  all_goals simp

theorem stageMarkers_main (env : Env) :
    ((main env).2 = MainOutcome.eventLoop ∧ stageMarkers (main env).1 = stagePlan.take 6) ∨
    ((main env).2 = MainOutcome.exitCode 1 ∧ stageMarkers (main env).1 = stagePlan.take 3) := by
  simp only [main]
  split
  · rename_i c heq
    right
    have hc : c = 1 := by
      rcases gifRes_snd env with h | h
      · rw [heq] at h
        exact absurd h (by simp)
      · rw [heq] at h
        exact Option.some.inj h
    subst hc
    refine ⟨rfl, ?_⟩
    simp only [stageMarkers_append, stageMarkers_load, stageMarkers_gifRes]
    simp [stageMarkers, stagePlan, List.take_succ_cons, List.take_zero]
  · split
    · rename_i c heq
      right
      have hc : c = 1 := by
        rcases logoRes_snd env with h | h
        · rw [heq] at h
          exact absurd h (by simp)
        · rw [heq] at h
          exact Option.some.inj h
      subst hc
      refine ⟨rfl, ?_⟩
      simp only [stageMarkers_append, stageMarkers_load, stageMarkers_gifRes,
                 stageMarkers_logoRes]
      simp [stageMarkers, stagePlan, List.take_succ_cons, List.take_zero]
    · left
      refine ⟨rfl, ?_⟩
      simp only [stageMarkers_append, stageMarkers_load, stageMarkers_gifRes,
                 stageMarkers_logoRes]
      simp [stageMarkers, stagePlan, List.take_succ_cons, List.take_zero]

/-- Claim C9: every run of the startup sequencer produces its stage markers
as a prefix of the fixed order LoggingInit, DataBootstrap,
ResourceResolution, AuthInit, WindowConstruction, LoadingScreenDisplay,
DeferredActivation — a stage appears only after all its predecessors; the
deferred activation handler never runs during the synchronous sequence, and
when the synchronous sequence reaches the event loop and the splash screen
signals completion, all seven stages appear in order. -/
theorem startup_stage_order (env : Env) (b : Bool) :
    (∃ k, stageMarkers (appRun env b) = stagePlan.take k) ∧
    StartupStage.DeferredActivation ∉ stageMarkers (main env).1 ∧
    ((main env).2 = MainOutcome.eventLoop → stageMarkers (appRun env true) = stagePlan) := by
  have hhandler : stageMarkers (on_splash_closed env).1 = [] := stageMarkers_handler env
  rcases stageMarkers_main env with ⟨h2, h1⟩ | ⟨h2, h1⟩
  · have ha : appRun env true =
        (main env).1 ++
          ([Event.stage StartupStage.DeferredActivation] ++ (on_splash_closed env).1) := by
      simp [appRun, h2]
    have hfull : stageMarkers (appRun env true) = stagePlan := by
      rw [ha, stageMarkers_append, stageMarkers_append, h1, hhandler]
      decide
    refine ⟨?_, ?_, fun _ => hfull⟩
    · cases b
      · refine ⟨6, ?_⟩
        have ha0 : appRun env false = (main env).1 := by
          simp [appRun, h2]
        rw [ha0, h1]
      · exact ⟨7, by rw [hfull]; decide⟩
    · rw [h1]
      decide
  · have ha : appRun env b = (main env).1 := by
      simp [appRun, h2]
    refine ⟨⟨3, ?_⟩, ?_, ?_⟩
    · rw [ha, h1]
    · rw [h1]
      decide
    · intro h
      rw [h2] at h
      exact absurd h (by simp)

/-- Witness for startup_stage_order: in the nominal environment with the
splash completion signal fired, all seven stages appear in order. -/
theorem startup_stage_order_witness :
    stageMarkers (appRun envBase true) = stagePlan :=
  (startup_stage_order envBase true).2.2 rfl

end PYE3
